import Mathlib

/-!
Verification of the VulnX-Pro scanning core against its specification.

The Python modules under `core/` are shallowly embedded below:
pure functions become Lean functions, the network is an explicit
environment (oracle) argument, instance state is passed explicitly, and
`try/except` blocks become `Except`/`match`.  Machine floats in the
boolean-blind detector are modelled with `ℚ` (only order comparisons of
small integer ratios occur).  Definitions come first, theorems follow.
-/

namespace VulnX

/-! ## core/constants.py -/

/-- Catalog `SQLI_PAYLOADS` from core/constants.py. -/
def SQLI_PAYLOADS : List String :=
  ["' OR '1'='1",
   "' OR 1=1--",
   "\" OR 1=1--",
   "' UNION SELECT NULL--"]

/-- Catalog `XSS_PAYLOADS` from core/constants.py. -/
def XSS_PAYLOADS : List String :=
  ["<script>alert(1)</script>",
   "'\"><script>alert(1)</script>",
   "<img src=x onerror=alert(1)>"]

/-- Catalog `SQL_ERRORS` from core/constants.py. -/
def SQL_ERRORS : List String :=
  ["you have an error in your sql syntax",
   "warning: mysql",
   "unclosed quotation mark",
   "quoted string not properly terminated",
   "ORA-"]

/-! ## Python primitives -/

/-- Python substring containment: `sub in s`. -/
def pyIn (sub s : String) : Bool := decide (sub.toList <:+: s.toList)

/-- Python `str.lower()`, character by character. -/
def pyLower (s : String) : String := ⟨s.data.map Char.toLower⟩

/-- Python `str.strip()`: drop leading and trailing whitespace. -/
def pyStrip (s : String) : String :=
  ⟨((s.data.dropWhile Char.isWhitespace).reverse.dropWhile Char.isWhitespace).reverse⟩

/-- A string of length `n` (used to instantiate length-based statements). -/
def strOfLen (n : Nat) : String := ⟨List.replicate n 'a'⟩

/-! ## core/detectors_v2.py — VulnerabilityAnalyzer -/

/-- `VulnerabilityAnalyzer.detect_sqli_error`: the lowercased response
contains some lowercased catalog fingerprint. -/
def detect_sqli_error (response : String) : Bool :=
  SQL_ERRORS.any (fun err => pyIn (pyLower err) (pyLower response))

/-- Default `threshold` argument of `detect_sqli_boolean` (Python `0.1`). -/
def DEFAULT_BOOL_THRESHOLD : ℚ := 1 / 10

/-- `VulnerabilityAnalyzer.detect_sqli_boolean`: guard on falsy (empty)
responses, then compare `abs(len_t - len_f) / max(len_t, len_f)` with the
threshold.  The redundant zero-length guard of the source is kept. -/
def detect_sqli_boolean (resp_true resp_false : String) (threshold : ℚ) : Bool :=
  if resp_true = "" ∨ resp_false = "" then false
  else
    let true_len := resp_true.length
    let false_len := resp_false.length
    if true_len = 0 ∨ false_len = 0 then false
    else decide (|(true_len : ℚ) - (false_len : ℚ)| / (max true_len false_len : ℚ) > threshold)

/-- `VulnerabilityAnalyzer.detect_xss_reflected`: guard on falsy (empty)
response or payload, then Python `payload in response`. -/
def detect_xss_reflected (response payload : String) : Bool :=
  if response = "" ∨ payload = "" then false
  else pyIn payload response

/-! ## core/extractor_v2.py — form data model -/

/-- One entry of a form's `"inputs"` list as built by
`FormExtractor._parse_form` (`name`, `type`, `value`). -/
structure InputField where
  name : String
  type : String
  value : String
deriving DecidableEq

/-- One entry of a form's `"textareas"` list (`name`, `value`). -/
structure TextAreaField where
  name : String
  value : String
deriving DecidableEq

/-- One entry of a form's `"selects"` list (`name`, `options`). -/
structure SelectField where
  name : String
  options : List String
deriving DecidableEq

/-- The form dictionary built by `FormExtractor._parse_form`: id, action
(empty string when absent), lowercased method, and the three field groups. -/
structure Form where
  id : String
  action : String
  method : String
  inputs : List InputField
  textareas : List TextAreaField
  selects : List SelectField
deriving DecidableEq

/-- `FormExtractor.has_vulnerable_inputs`: true when some input's
lowercased type is none of submit/button/reset/hidden (the loop returns at
the first such input), otherwise true iff there is at least one textarea. -/
def has_vulnerable_inputs (form : Form) : Bool :=
  form.inputs.any
    (fun inp => !(["submit", "button", "reset", "hidden"].contains (pyLower inp.type)))
  || form.textareas.length > 0

/-! ## core/injector_v2.py — PayloadInjector -/

/-- Failure modes of one HTTP dispatch, mirroring the exception classes
caught by `PayloadInjector.inject`. -/
inductive NetError where
  | timeout
  | connectionError
  | otherError (msg : String)
deriving DecidableEq

/-- The form dictionary as `PayloadInjector.inject` consumes it:
`form.get("action", "")`, `form.get("method", "get")` and
`form.get("inputs", [])` where the inputs entry is iterated as a list of
field names (the shape produced by the legacy extractor). -/
structure InjectorForm where
  action : String
  method : String
  inputs : List String
deriving DecidableEq

/-- The network boundary used by `PayloadInjector.inject`: `urljoin`, and
`requests.get` / `requests.post` on a target with a field→payload mapping,
each of which either yields a response text or fails. -/
structure HttpEnv where
  urljoin : String → String → String
  httpGet : String → List (String × String) → Except NetError String
  httpPost : String → List (String × String) → Except NetError String

/-- The try-block of `PayloadInjector.inject`: resolve the target (falling
back to `url` when empty), map every field name to the payload (one
synthetic `"input"` field when the form has none), pick the method
(explicit override, else the form's, lowercased), and dispatch GET or POST.
Rate limiting delays the dispatch but does not change its result, so it is
not modelled. -/
def requestResult (env : HttpEnv) (url : String) (form : InjectorForm)
    (payload : String) (method : Option String) : Except NetError String :=
  let target0 := env.urljoin url form.action
  let target := if target0 = "" then url else target0
  let data0 := form.inputs.map (fun name => (name, payload))
  let data := if data0 = [] then [("input", payload)] else data0
  let form_method := pyLower (method.getD form.method)
  if form_method = "post" then env.httpPost target data
  else env.httpGet target data

/-- `PayloadInjector.inject`: the try-block's response text on success, and
the empty string under every `except` arm.  Totality of this function is
the embedded form of "never raises past this boundary". -/
def PayloadInjector.inject (env : HttpEnv) (url : String) (form : InjectorForm)
    (payload : String) (method : Option String) : String :=
  match requestResult env url form payload method with
  | .ok text => text
  | .error _ => ""

/-! ## core/injector_v2.py — BulkPayloadInjector -/

/-- The statistics counters of `BulkPayloadInjector`. -/
structure BulkStats where
  injection_count : Nat
  error_count : Nat
deriving DecidableEq

/-- `BulkPayloadInjector.inject`: increment `injection_count`, then run the
base `inject` inside `try/except`.  The base `inject` is total (it returns
`""` on every failure), so the `except` arm that would increment
`error_count` and re-raise is unreachable and `error_count` is returned
unchanged. -/
def BulkPayloadInjector.inject (env : HttpEnv) (st : BulkStats) (url : String)
    (form : InjectorForm) (payload : String) (method : Option String) :
    BulkStats × String :=
  let st1 : BulkStats := ⟨st.injection_count + 1, st.error_count⟩
  (st1, PayloadInjector.inject env url form payload method)

/-- `BulkPayloadInjector.get_stats`: total injections, errors, and the
derived success rate `(total - errors) / total * 100` (0 when idle). -/
def BulkPayloadInjector.get_stats (st : BulkStats) : Nat × Nat × ℚ :=
  (st.injection_count, st.error_count,
   if st.injection_count > 0 then
     ((st.injection_count : ℚ) - (st.error_count : ℚ)) / (st.injection_count : ℚ) * 100
   else 0)

/-- An environment in which every HTTP dispatch fails at the network level
with a connection error. -/
def failEnv : HttpEnv :=
  { urljoin := fun _ href => href
  , httpGet := fun _ _ => .error .connectionError
  , httpPost := fun _ _ => .error .connectionError }

/-- A concrete form for instantiating injector statements. -/
def sampleInjForm : InjectorForm := ⟨"", "get", ["q"]⟩

/-- `n` consecutive `BulkPayloadInjector.inject` calls with the same
arguments, threading the statistics state. -/
def bulkInjectN (env : HttpEnv) (url : String) (form : InjectorForm)
    (payload : String) : Nat → BulkStats → BulkStats
  | 0, st => st
  | n + 1, st =>
    bulkInjectN env url form payload n
      (BulkPayloadInjector.inject env st url form payload none).1

/-! ## core/detectors_v2.py — SQLInjectionScanner / XSSScanner -/

/-- The injection boundary seen by the scanners: `injector.inject(url,
form, payload)` as a response oracle.  (The scanners treat the injector as
opaque; the oracle abstracts its state and network effects.) -/
abbrev Inject := String → Form → String → String

/-- The error-based loop of `SQLInjectionScanner.scan_form`: try catalog
payloads in order, record one finding and break at the first response that
shows a database error.  Returns (findings, payloads injected). -/
def sqli_error_loop (inject : Inject) (url : String) (form : Form)
    (endpoint : String) : List String → List (String × String × String) × List String
  | [] => ([], [])
  | p :: ps =>
    if detect_sqli_error (inject url form p) then
      ([("SQL Injection", endpoint, p)], [p])
    else
      let rest := sqli_error_loop inject url form endpoint ps
      (rest.1, p :: rest.2)

/-- `SQLInjectionScanner.scan_form`: run the error-based loop over
`SQLI_PAYLOADS`, then always fire the two dedicated boolean-blind
injections and compare their responses at the default threshold.
Returns (findings, payloads injected in order). -/
def SQLInjectionScanner.scan_form (inject : Inject) (url : String) (form : Form) :
    List (String × String × String) × List String :=
  let endpoint := form.action
  let eloop := sqli_error_loop inject url form endpoint SQLI_PAYLOADS
  let resp_true := inject url form "' OR 1=1--"
  let resp_false := inject url form "' OR 1=2--"
  let bool_results :=
    if detect_sqli_boolean resp_true resp_false DEFAULT_BOOL_THRESHOLD then
      [("Blind SQL Injection", endpoint, "Boolean Based")]
    else []
  (eloop.1 ++ bool_results, eloop.2 ++ ["' OR 1=1--", "' OR 1=2--"])

/-- The payload loop of `XSSScanner.scan_form`: try catalog payloads in
order, record one finding and break at the first reflected payload.
Returns (findings, payloads injected). -/
def xss_loop (inject : Inject) (url : String) (form : Form)
    (endpoint : String) : List String → List (String × String × String) × List String
  | [] => ([], [])
  | p :: ps =>
    if detect_xss_reflected (inject url form p) p then
      ([("Reflected XSS", endpoint, p)], [p])
    else
      let rest := xss_loop inject url form endpoint ps
      (rest.1, p :: rest.2)

/-- `XSSScanner.scan_form`: the reflected-XSS loop over `XSS_PAYLOADS`. -/
def XSSScanner.scan_form (inject : Inject) (url : String) (form : Form) :
    List (String × String × String) × List String :=
  xss_loop inject url form form.action XSS_PAYLOADS

/-! ## core/scanner_v2.py — the orchestrator's per-form loop -/

/-- One iteration of the form loop of
`VulnerabilityScanner._scan_single_url`: skip the form when it has no
testable inputs, otherwise run the SQLi scanner then the XSS scanner and
accumulate findings and the performed injections (tagged with the form). -/
def scan_form_step (inject : Inject) (url : String)
    (acc : List (String × String × String) × List (Form × String)) (form : Form) :
    List (String × String × String) × List (Form × String) :=
  if !has_vulnerable_inputs form then acc
  else
    let sq := SQLInjectionScanner.scan_form inject url form
    let xs := XSSScanner.scan_form inject url form
    (acc.1 ++ sq.1 ++ xs.1, acc.2 ++ (sq.2 ++ xs.2).map (fun p => (form, p)))

/-- The form loop of `VulnerabilityScanner._scan_single_url`. -/
def scan_forms_loop (inject : Inject) (url : String) (forms : List Form) :
    List (String × String × String) × List (Form × String) :=
  forms.foldl (scan_form_step inject url) ([], [])

/-! ## core/crawler_v2.py — WebCrawler -/

/-- The scheme/netloc components of `urllib.parse.urlparse`. -/
structure URLParts where
  scheme : String
  netloc : String
deriving DecidableEq

/-- The crawler's external boundary: URL parsing/joining and the network.
`fetchPage` is `_fetch_page` (page text, `""` on any failure);
`anchorHrefs` lists the `href` attributes of the `<a>` elements
BeautifulSoup finds in a page, in document order. -/
structure CrawlEnv where
  urlparse : String → URLParts
  urljoin : String → String → String
  fetchPage : String → String
  anchorHrefs : String → List String

/-- `WebCrawler._is_valid_url`: the parse has a nonempty scheme and a
nonempty netloc (Python truthiness of `all([scheme, netloc])`). -/
def is_valid_url (env : CrawlEnv) (url : String) : Bool :=
  decide ((env.urlparse url).scheme ≠ "") && decide ((env.urlparse url).netloc ≠ "")

/-- `WebCrawler._is_same_domain`: netloc equality of the two parses. -/
def is_same_domain (env : CrawlEnv) (base_url target_url : String) : Bool :=
  decide ((env.urlparse base_url).netloc = (env.urlparse target_url).netloc)

/-- `WebCrawler._extract_links`: for every anchor href (stripped, skipping
empties), resolve against the page URL and keep it only when it is a valid
absolute URL on the same domain as the page. -/
def extract_links (env : CrawlEnv) (url : String) (html_content : String) : List String :=
  (env.anchorHrefs html_content).filterMap (fun href0 =>
    if pyStrip href0 = "" then none
    else if is_valid_url env (env.urljoin url (pyStrip href0)) &&
            is_same_domain env url (env.urljoin url (pyStrip href0)) then
      some (env.urljoin url (pyStrip href0))
    else none)

/-- The mutable state threaded through `_crawl_recursive`: the instance's
`visited` set and the `discovered` accumulator list. -/
structure CrawlState where
  visited : List String
  discovered : List String
deriving DecidableEq

/-- `WebCrawler._crawl_recursive`, re-indexed on `gas = max_depth + 1 -
depth` so that the stop condition `depth > max_depth` is exactly
`gas = 0`; each recursive call at `depth + 1` runs at `gas - 1`. -/
def crawl_go (env : CrawlEnv) : Nat → String → CrawlState → CrawlState
  | 0, _, s => s
  | gas + 1, url, s =>
    if url ∈ s.visited then s
    else
      let s1 : CrawlState := ⟨url :: s.visited, s.discovered ++ [url]⟩
      let html_content := env.fetchPage url
      if html_content = "" then s1
      else
        (extract_links env url html_content).foldl
          (fun acc link => if link ∈ acc.visited then acc else crawl_go env gas link acc)
          s1

/-- The crawler instance: its depth bound and its `visited` set. -/
structure WebCrawler where
  max_depth : Nat
  visited : List String

/-- `WebCrawler.crawl`: clear `self.visited`, then run `_crawl_recursive`
from depth 0 with an empty accumulator.  Returns the instance as left
after the call together with the discovered-URL list. -/
def WebCrawler.crawl (env : CrawlEnv) (c : WebCrawler) (start_url : String) :
    WebCrawler × List String :=
  let s := crawl_go env (c.max_depth + 1) start_url ⟨[], []⟩
  (⟨c.max_depth, s.visited⟩, s.discovered)

/-- The crawl-state invariant behind claims C1: no duplicates, everything
discovered is marked visited, and every discovered URL is on `host`. -/
def CrawlInv (env : CrawlEnv) (host : String) (s : CrawlState) : Prop :=
  s.discovered.Nodup ∧
  (∀ u ∈ s.discovered, u ∈ s.visited) ∧
  (∀ u ∈ s.discovered, (env.urlparse u).netloc = host)

/-- A concrete, fully computable crawl environment (single-page site),
used to instantiate hypotheses of the crawler theorems. -/
def demoEnv : CrawlEnv :=
  { urlparse := fun _ => ⟨"http", "host.example"⟩
  , urljoin := fun _ href => href
  , fetchPage := fun _ => "<a href=x>"
  , anchorHrefs := fun _ => ["http://host.example/a"] }

/-! ## core/scanner_v2.py — results and summary -/

/-- The `ScanResult` dataclass (timestamp filled in at creation). -/
structure ScanResult where
  vulnerability_type : String
  endpoint : String
  payload : String
  timestamp : String
deriving DecidableEq

/-- One step of the dict build in `get_summary`:
`results_by_type[vt] = results_by_type.get(vt, 0) + 1`, preserving the
insertion order of a Python dict. -/
def bump : List (String × Nat) → String → List (String × Nat)
  | [], t => [(t, 1)]
  | (k, v) :: rest, t =>
    if k = t then (k, v + 1) :: rest else (k, v) :: bump rest t

/-- The `results_by_type` dict of `VulnerabilityScanner.get_summary`. -/
def results_by_type (results : List ScanResult) : List (String × Nat) :=
  results.foldl (fun acc r => bump acc r.vulnerability_type) []

/-- The summary dictionary returned by `get_summary`. -/
structure ScanSummary where
  total_vulnerabilities : Nat
  total_urls_discovered : Nat
  vulnerabilities_by_type : List (String × Nat)
  scan_timestamp : String
deriving DecidableEq

/-- `VulnerabilityScanner.get_summary` over the scanner's current findings
list and discovered URLs (`now` stands for `datetime.now().isoformat()`). -/
def get_summary (scan_results : List ScanResult) (discovered_urls : List String)
    (now : String) : ScanSummary :=
  ⟨scan_results.length, discovered_urls.length, results_by_type scan_results, now⟩

/-- Total of the per-type counts of a summary mapping. -/
def sumCounts (l : List (String × Nat)) : Nat := (l.map (fun kv => kv.2)).sum

/-- The count recorded for type `t` in a summary mapping (0 if absent). -/
def lookupCount (l : List (String × Nat)) (t : String) : Nat :=
  (l.lookup t).getD 0

/-! # Theorems -/

/-! ## Claim C2 — boolean-blind detector -/

/-- Claim C2: the boolean-blind detector returns false when either response
is empty, returns false when both responses have identical length (for any
non-negative threshold, in particular the default 0.1), and for nonempty
responses returns true exactly when `|len_t - len_f| / max(len_t, len_f)`
strictly exceeds the threshold; at the default threshold it fires for
lengths 100/50 and stays silent for lengths 100/95. -/
theorem detect_sqli_boolean_spec (t f : String) (th : ℚ) (hth : 0 ≤ th) :
    ((t = "" ∨ f = "") → detect_sqli_boolean t f th = false) ∧
    (t.length = f.length → detect_sqli_boolean t f th = false) ∧
    (t ≠ "" → f ≠ "" →
      (detect_sqli_boolean t f th = true ↔
        |(t.length : ℚ) - (f.length : ℚ)| / (max t.length f.length : ℚ) > th)) ∧
    (t.length = 100 → f.length = 50 → detect_sqli_boolean t f DEFAULT_BOOL_THRESHOLD = true) ∧
    (t.length = 100 → f.length = 95 → detect_sqli_boolean t f DEFAULT_BOOL_THRESHOLD = false) := by
  refine ⟨?_, ?_, ?_, ?_, ?_⟩
  · intro h
    simp [detect_sqli_boolean, h]
  · intro hlen
    by_cases he : t = "" ∨ f = ""
    · simp [detect_sqli_boolean, he]
    · simp only [detect_sqli_boolean, he, if_false, hlen]
      rw [if_neg]
      · simp only [decide_eq_false_iff_not, not_lt, sub_self, abs_zero, zero_div]
        exact hth
      · push_neg at he
        intro hc
        rcases hc with hc | hc
        · exact he.2 (by cases f with
            | mk data => cases data with
              | nil => rfl
              | cons c cs => simp [String.length] at hc ⊢)
        · exact he.2 (by cases f with
            | mk data => cases data with
              | nil => rfl
              | cons c cs => simp [String.length] at hc)
  · intro ht hf
    have hlt : t.length ≠ 0 := by
      intro hc
      apply ht
      cases t with
      | mk data => cases data with
        | nil => rfl
        | cons c cs => simp [String.length] at hc
    have hlf : f.length ≠ 0 := by
      intro hc
      apply hf
      cases f with
      | mk data => cases data with
        | nil => rfl
        | cons c cs => simp [String.length] at hc
    simp [detect_sqli_boolean, ht, hf, hlt, hlf]
  · intro h100 h50
    have ht : t ≠ "" := by
      intro hc; rw [hc] at h100; simp [String.length] at h100
    have hf : f ≠ "" := by
      intro hc; rw [hc] at h50; simp [String.length] at h50
    simp only [detect_sqli_boolean, ht, hf, h100, h50]
    norm_num [DEFAULT_BOOL_THRESHOLD]
  · intro h100 h95
    have ht : t ≠ "" := by
      intro hc; rw [hc] at h100; simp [String.length] at h100
    have hf : f ≠ "" := by
      intro hc; rw [hc] at h95; simp [String.length] at h95
    simp only [detect_sqli_boolean, ht, hf, h100, h95]
    norm_num [DEFAULT_BOOL_THRESHOLD]

/-- Witness for C2: concrete responses of length 100 and 50 at the default
threshold trigger the detector. -/
theorem detect_sqli_boolean_spec_witness :
    (0 : ℚ) ≤ DEFAULT_BOOL_THRESHOLD ∧
    detect_sqli_boolean (strOfLen 100) (strOfLen 50) DEFAULT_BOOL_THRESHOLD = true :=
  ⟨by norm_num [DEFAULT_BOOL_THRESHOLD],
   (detect_sqli_boolean_spec (strOfLen 100) (strOfLen 50) DEFAULT_BOOL_THRESHOLD
      (by norm_num [DEFAULT_BOOL_THRESHOLD])).2.2.2.1
     (by simp [strOfLen, String.length]) (by simp [strOfLen, String.length])⟩

/-! ## Claim C3 — reflected-XSS detector -/

/-- Claim C3, counterexample: for the empty payload the claimed iff fails —
the empty string is a substring of every response body, yet the detector
returns false (its falsy-payload guard fires first). -/
theorem detect_xss_reflected_empty_payload_cex :
    ("".toList <:+: "abc".toList) ∧ detect_xss_reflected "abc" "" = false := by
  constructor
  · exact ⟨[], "abc".toList, by simp⟩
  · rfl

/-- Claim C3 (amended): for every nonempty payload, the detector returns
true iff the exact payload string appears verbatim as a substring of the
response body; encoded or transformed variants are therefore not flagged. -/
theorem detect_xss_reflected_amended (response payload : String) (hp : payload ≠ "") :
    detect_xss_reflected response payload = true ↔ payload.toList <:+: response.toList := by
  by_cases hr : response = ""
  · subst hr
    simp only [detect_xss_reflected, if_pos (Or.inl rfl)]
    constructor
    · intro h; exact absurd h (by simp)
    · intro h
      exfalso
      have hlen := h.sublist.length_le
      simp only [String.toList] at hlen
      have : payload.data = [] := List.eq_nil_of_length_eq_zero (Nat.le_zero.mp hlen)
      exact hp (by cases payload; simp_all)
  · have hcond : ¬(response = "" ∨ payload = "") := by
      intro hc; rcases hc with hc | hc
      · exact hr hc
      · exact hp hc
    simp [detect_xss_reflected, hcond, pyIn]

/-- Witness for C3 (amended): the first XSS catalog payload reflected
verbatim in a response body is flagged. -/
theorem detect_xss_reflected_amended_witness :
    detect_xss_reflected "<p><script>alert(1)</script></p>" "<script>alert(1)</script>" = true :=
  (detect_xss_reflected_amended "<p><script>alert(1)</script></p>" "<script>alert(1)</script>"
    (by decide)).mpr (by decide)

/-! ## Claim C5 — injector error handling -/

/-- Claim C5: for every environment and input, `inject` returns the
response text when the dispatched request succeeds, and the empty string
when it fails with any error (timeout, connection error, or anything
else); being a total function of its inputs, it never raises to its
caller. -/
theorem inject_ok_or_empty (env : HttpEnv) (url : String) (form : InjectorForm)
    (payload : String) (method : Option String) :
    (∃ r, requestResult env url form payload method = .ok r ∧
      PayloadInjector.inject env url form payload method = r) ∨
    (∃ e, requestResult env url form payload method = .error e ∧
      PayloadInjector.inject env url form payload method = "") := by
  cases h : requestResult env url form payload method with
  | ok r => exact Or.inl ⟨r, rfl, by simp [PayloadInjector.inject, h]⟩
  | error e => exact Or.inr ⟨e, rfl, by simp [PayloadInjector.inject, h]⟩

/-! ## Claim C8 — BulkPayloadInjector statistics -/

/-- Claim C8 (code bug): the attempts counter counts every call, but the
failure counter never moves, because the base `inject` swallows every
exception before the statistics override's `except` arm can see it.
Concretely, after 3 inject calls that all fail at the network level, the
reported failure count is 0 (the claim says 3) and `get_stats` reports a
100% success rate. -/
theorem bulk_stats_error_count_dead (env : HttpEnv) (st : BulkStats) (url : String)
    (form : InjectorForm) (payload : String) (method : Option String) :
    ((BulkPayloadInjector.inject env st url form payload method).1.injection_count
      = st.injection_count + 1) ∧
    ((BulkPayloadInjector.inject env st url form payload method).1.error_count
      = st.error_count) ∧
    (requestResult failEnv "http://target/" sampleInjForm "x" none
      = .error .connectionError) ∧
    ((bulkInjectN failEnv "http://target/" sampleInjForm "x" 3 ⟨0, 0⟩).injection_count = 3) ∧
    ((bulkInjectN failEnv "http://target/" sampleInjForm "x" 3 ⟨0, 0⟩).error_count = 0) ∧
    (BulkPayloadInjector.get_stats
        (bulkInjectN failEnv "http://target/" sampleInjForm "x" 3 ⟨0, 0⟩)
      = (3, 0, 100)) := by
  refine ⟨rfl, rfl, rfl, rfl, rfl, ?_⟩
  have h : bulkInjectN failEnv "http://target/" sampleInjForm "x" 3 ⟨0, 0⟩
      = (⟨3, 0⟩ : BulkStats) := rfl
  rw [h]
  simp only [BulkPayloadInjector.get_stats]
  norm_num

/-! ## Claim C4 — first-match short-circuit scanning -/

/-- The error-based loop returns exactly one exemplar finding at the first
catalog payload whose response shows a database error, or none. -/
theorem sqli_error_loop_results (inject : Inject) (url : String) (form : Form)
    (endpoint : String) (ps : List String) :
    (sqli_error_loop inject url form endpoint ps).1 =
      match ps.find? (fun p => detect_sqli_error (inject url form p)) with
      | some p => [("SQL Injection", endpoint, p)]
      | none => [] := by
  induction ps with
  | nil => rfl
  | cons p ps ih =>
    cases h : detect_sqli_error (inject url form p) with
    | true => simp [List.find?_cons, sqli_error_loop, h]
    | false =>
      simp only [List.find?_cons, sqli_error_loop, h, if_false, Bool.false_eq_true]
      exact ih

/-- The reflected-XSS loop returns exactly one exemplar finding at the
first catalog payload that is reflected, or none. -/
theorem xss_loop_results (inject : Inject) (url : String) (form : Form)
    (endpoint : String) (ps : List String) :
    (xss_loop inject url form endpoint ps).1 =
      match ps.find? (fun p => detect_xss_reflected (inject url form p) p) with
      | some p => [("Reflected XSS", endpoint, p)]
      | none => [] := by
  induction ps with
  | nil => rfl
  | cons p ps ih =>
    cases h : detect_xss_reflected (inject url form p) p with
    | true => simp [List.find?_cons, xss_loop, h]
    | false =>
      simp only [List.find?_cons, xss_loop, h, if_false, Bool.false_eq_true]
      exact ih

/-- Claim C4: per form and vulnerability class the scanners walk the
payload catalog in order and stop at the first hit, so each class yields
at most one finding, whose payload is the earliest catalog payload that
triggers; and the SQLi scanner's injection trace always ends with the two
dedicated boolean-blind injections, whether or not the error-based loop
found a hit. -/
theorem scan_form_first_match (inject : Inject) (url : String) (form : Form) :
    ((SQLInjectionScanner.scan_form inject url form).1 =
      (match SQLI_PAYLOADS.find? (fun p => detect_sqli_error (inject url form p)) with
       | some p => [("SQL Injection", form.action, p)]
       | none => []) ++
      (if detect_sqli_boolean (inject url form "' OR 1=1--") (inject url form "' OR 1=2--")
            DEFAULT_BOOL_THRESHOLD then
         [("Blind SQL Injection", form.action, "Boolean Based")]
       else [])) ∧
    (((SQLInjectionScanner.scan_form inject url form).1.filter
        (fun r => r.1 = "SQL Injection")).length ≤ 1) ∧
    (["' OR 1=1--", "' OR 1=2--"] <:+ (SQLInjectionScanner.scan_form inject url form).2) ∧
    ((XSSScanner.scan_form inject url form).1 =
      match XSS_PAYLOADS.find? (fun p => detect_xss_reflected (inject url form p) p) with
      | some p => [("Reflected XSS", form.action, p)]
      | none => []) ∧
    ((XSSScanner.scan_form inject url form).1.length ≤ 1) := by
  have hsq : (SQLInjectionScanner.scan_form inject url form).1 =
      (sqli_error_loop inject url form form.action SQLI_PAYLOADS).1 ++
      (if detect_sqli_boolean (inject url form "' OR 1=1--") (inject url form "' OR 1=2--")
            DEFAULT_BOOL_THRESHOLD then
         [("Blind SQL Injection", form.action, "Boolean Based")]
       else []) := rfl
  have hx : (XSSScanner.scan_form inject url form).1 =
      (xss_loop inject url form form.action XSS_PAYLOADS).1 := rfl
  refine ⟨?_, ?_, ?_, ?_, ?_⟩
  · rw [hsq, sqli_error_loop_results]
  · rw [hsq, sqli_error_loop_results, List.filter_append, List.length_append]
    cases hfind : SQLI_PAYLOADS.find? (fun p => detect_sqli_error (inject url form p)) with
    | none =>
      cases hb : detect_sqli_boolean (inject url form "' OR 1=1--")
          (inject url form "' OR 1=2--") DEFAULT_BOOL_THRESHOLD <;>
        simp
    | some p =>
      cases hb : detect_sqli_boolean (inject url form "' OR 1=1--")
          (inject url form "' OR 1=2--") DEFAULT_BOOL_THRESHOLD <;>
        simp
  · exact List.suffix_append _ _
  · rw [hx, xss_loop_results]
  · rw [hx, xss_loop_results]
    cases hfind : XSS_PAYLOADS.find? (fun p => detect_xss_reflected (inject url form p) p) <;>
      simp

/-! ## Claim C9 — form testability and orchestrator skip -/

/-- The orchestrator's form loop only ever injects into forms that pass
the testability predicate, whatever the starting accumulator already
contains. -/
theorem scan_forms_loop_aux (inject : Inject) (url : String) :
    ∀ (forms : List Form) acc,
      (∀ fp ∈ acc.2, has_vulnerable_inputs fp.1 = true) →
      ∀ fp ∈ (forms.foldl (scan_form_step inject url) acc).2,
        has_vulnerable_inputs fp.1 = true := by
  intro forms
  induction forms with
  | nil => intro acc h; simpa using h
  | cons form forms ih =>
    intro acc h
    simp only [List.foldl_cons]
    apply ih
    intro fp hfp
    cases hv : has_vulnerable_inputs form with
    | false =>
      simp only [scan_form_step, hv, Bool.not_false, if_true] at hfp
      exact h fp hfp
    | true =>
      simp only [scan_form_step, hv, Bool.not_true, Bool.false_eq_true, if_false,
        List.mem_append, List.mem_map] at hfp
      rcases hfp with hfp | ⟨p, _, hp⟩
      · exact h fp hfp
      · rw [← hp]
        exact hv

/-- Claim C9: the testability predicate returns true iff the form has an
input whose type (case-insensitively) is outside
{submit, button, reset, hidden} or has at least one textarea; a form whose
only named field is a select fails it; and the orchestrator's form loop
performs injections only into forms that pass it. -/
theorem has_vulnerable_inputs_spec (form : Form) (inject : Inject) (url : String)
    (forms : List Form) :
    (has_vulnerable_inputs form = true ↔
      ((∃ inp ∈ form.inputs,
          pyLower inp.type ∉ (["submit", "button", "reset", "hidden"] : List String)) ∨
        form.textareas ≠ [])) ∧
    (∀ fp ∈ (scan_forms_loop inject url forms).2, has_vulnerable_inputs fp.1 = true) ∧
    (has_vulnerable_inputs ⟨"form_0", "", "get", [], [], [⟨"choice", ["a", "b"]⟩]⟩ = false) := by
  refine ⟨?_, ?_, rfl⟩
  · simp [has_vulnerable_inputs, List.any_eq_true, ← List.length_pos_iff_ne_nil]
  · exact scan_forms_loop_aux inject url forms ([], []) (by simp)

/-! ## Claim C1 — crawl produces distinct, same-host URLs -/

/-- Every link kept by `_extract_links` shares the netloc of the page it
was extracted from (the same-domain filter compares exactly these). -/
theorem extract_links_netloc (env : CrawlEnv) (url html_content : String) :
    ∀ l ∈ extract_links env url html_content,
      (env.urlparse l).netloc = (env.urlparse url).netloc := by
  intro l hl
  simp only [extract_links, List.mem_filterMap] at hl
  obtain ⟨href0, _, hsome⟩ := hl
  by_cases h1 : pyStrip href0 = ""
  · rw [if_pos h1] at hsome
    cases hsome
  · rw [if_neg h1] at hsome
    by_cases h2 : (is_valid_url env (env.urljoin url (pyStrip href0)) &&
        is_same_domain env url (env.urljoin url (pyStrip href0))) = true
    · rw [if_pos h2] at hsome
      cases hsome
      have h3 := (Bool.and_eq_true _ _).mp h2
      exact (of_decide_eq_true h3.2).symm
    · rw [if_neg h2] at hsome
      cases hsome

/-- Marking a fresh same-host URL visited and appending it to the
discovered list preserves the crawl invariant. -/
theorem CrawlInv.push (env : CrawlEnv) (host : String) {s : CrawlState} {url : String}
    (hs : CrawlInv env host s) (hv : url ∉ s.visited)
    (hurl : (env.urlparse url).netloc = host) :
    CrawlInv env host ⟨url :: s.visited, s.discovered ++ [url]⟩ := by
  obtain ⟨hnd, hsub, hhost⟩ := hs
  refine ⟨?_, ?_, ?_⟩
  · refine List.nodup_append.mpr ⟨hnd, List.nodup_singleton _, fun a ha hb => ?_⟩
    rw [List.mem_singleton] at hb
    subst hb
    exact hv (hsub a ha)
  · intro u hu
    rw [List.mem_append] at hu
    rcases hu with hu | hu
    · exact List.mem_cons_of_mem _ (hsub u hu)
    · rw [List.mem_singleton] at hu
      subst hu
      exact List.mem_cons_self _ _
  · intro u hu
    rw [List.mem_append] at hu
    rcases hu with hu | hu
    · exact hhost u hu
    · rw [List.mem_singleton] at hu
      subst hu
      exact hurl

/-- The link loop of `_crawl_recursive` preserves the crawl invariant,
given that recursion one level deeper preserves it. -/
theorem crawl_foldl_inv (env : CrawlEnv) (host : String) (g : Nat)
    (ih : ∀ (url : String) (s : CrawlState), CrawlInv env host s →
      (env.urlparse url).netloc = host → CrawlInv env host (crawl_go env g url s)) :
    ∀ (links : List String) (s : CrawlState),
      (∀ l ∈ links, (env.urlparse l).netloc = host) → CrawlInv env host s →
      CrawlInv env host
        (links.foldl (fun acc link =>
          if link ∈ acc.visited then acc else crawl_go env g link acc) s) := by
  intro links
  induction links with
  | nil => intro s _ hs; exact hs
  | cons l ls ihl =>
    intro s hall hs
    simp only [List.foldl_cons]
    apply ihl
    · intro x hx
      exact hall x (List.mem_cons_of_mem _ hx)
    · by_cases hmem : l ∈ s.visited
      · rw [if_pos hmem]
        exact hs
      · rw [if_neg hmem]
        exact ih l s hs (hall l (List.mem_cons_self _ _))

/-- `_crawl_recursive` preserves the crawl invariant at every gas, for any
URL on the crawl's host. -/
theorem crawl_go_inv (env : CrawlEnv) (host : String) :
    ∀ (gas : Nat) (url : String) (s : CrawlState),
      CrawlInv env host s → (env.urlparse url).netloc = host →
      CrawlInv env host (crawl_go env gas url s) := by
  intro gas
  induction gas with
  | zero => intro url s hs _; exact hs
  | succ g ih =>
    intro url s hs hurl
    simp only [crawl_go]
    by_cases hv : url ∈ s.visited
    · rw [if_pos hv]
      exact hs
    · rw [if_neg hv]
      have h1 := CrawlInv.push env host hs hv hurl
      by_cases hhtml : env.fetchPage url = ""
      · rw [if_pos hhtml]
        exact h1
      · rw [if_neg hhtml]
        apply crawl_foldl_inv env host g ih
        · intro l hl
          rw [extract_links_netloc env url (env.fetchPage url) l hl]
          exact hurl
        · exact h1

/-- Claim C1: on every crawl, the discovered-URL sequence has no
duplicates, and every URL in it has exactly the host (netloc) of the start
URL — links are kept only when their host equals the current page's host,
which transitively equals the start host. -/
theorem crawl_nodup_same_host (env : CrawlEnv) (c : WebCrawler) (start_url : String) :
    (c.crawl env start_url).2.Nodup ∧
    ∀ u ∈ (c.crawl env start_url).2,
      (env.urlparse u).netloc = (env.urlparse start_url).netloc := by
  have h := crawl_go_inv env (env.urlparse start_url).netloc (c.max_depth + 1) start_url
    ⟨[], []⟩ ⟨List.nodup_nil, by simp, by simp⟩ rfl
  exact ⟨h.1, h.2.2⟩

/-! ## Claim C6 — depth bound zero -/

/-- Claim C6: with `maxDepth = 0` the crawl returns exactly the start URL
alone (also when the fetch fails), and never recurses into any link
extracted from the start page: links sit at depth 1 > 0 and are dropped by
the inclusive depth bound. -/
theorem crawl_depth_zero (env : CrawlEnv) (c : WebCrawler) (start_url : String)
    (h : c.max_depth = 0) :
    (c.crawl env start_url).2 = [start_url] := by
  show (crawl_go env (c.max_depth + 1) start_url ⟨[], []⟩).discovered = [start_url]
  rw [h]
  simp only [crawl_go]
  rw [if_neg (List.not_mem_nil start_url)]
  by_cases hhtml : env.fetchPage start_url = ""
  · rw [if_pos hhtml]
    rfl
  · rw [if_neg hhtml]
    simp only [ite_self]
    have hfold : ∀ (links : List String) (s : CrawlState),
        List.foldl (fun (acc : CrawlState) (_ : String) => acc) s links = s := by
      intro links
      induction links with
      | nil => intro s; rfl
      | cons l ls ihl =>
        intro s
        simp only [List.foldl_cons]
        exact ihl s
    rw [hfold]
    rfl

/-- Witness for C6: a depth-0 crawler on a concrete single-page site
discovers exactly its start URL. -/
theorem crawl_depth_zero_witness :
    (WebCrawler.crawl demoEnv ⟨0, []⟩ "http://host.example/").2 = ["http://host.example/"] :=
  crawl_depth_zero demoEnv ⟨0, []⟩ "http://host.example/" rfl

/-! ## Claim C7 — crawl resets visited state -/

/-- Claim C7: `crawl` clears the instance's visited set on entry, so a
second call on the instance left by a first call (same fetch behaviour)
returns the same discovered sequence; more generally, the result is
independent of whatever visited state the instance starts with. -/
theorem crawl_restart_same (env : CrawlEnv) (c : WebCrawler) (start_url : String) :
    (((c.crawl env start_url).1).crawl env start_url).2 = (c.crawl env start_url).2 ∧
    ∀ v : List String,
      (WebCrawler.crawl env ⟨c.max_depth, v⟩ start_url).2 = (c.crawl env start_url).2 :=
  ⟨rfl, fun _ => rfl⟩

/-! ## Claim C10 — summary consistency -/

/-- Bumping a type's tally raises exactly that type's lookup by one. -/
theorem bump_lookup_self (l : List (String × Nat)) (t : String) :
    (bump l t).lookup t = some ((l.lookup t).getD 0 + 1) := by
  induction l with
  | nil => simp [bump, List.lookup]
  | cons kv rest ih =>
    obtain ⟨k, v⟩ := kv
    by_cases h : k = t
    · subst h
      simp [bump, List.lookup]
    · have h2 : (t == k) = false := beq_eq_false_iff_ne.mpr (fun hh => h hh.symm)
      simp [bump, h, List.lookup, h2, ih]

/-- Bumping a type's tally leaves every other type's lookup unchanged. -/
theorem bump_lookup_other (l : List (String × Nat)) (t u : String) (h : u ≠ t) :
    (bump l t).lookup u = l.lookup u := by
  induction l with
  | nil =>
    simp [bump, List.lookup, beq_eq_false_iff_ne.mpr h]
  | cons kv rest ih =>
    obtain ⟨k, v⟩ := kv
    by_cases hk : k = t
    · subst hk
      simp [bump, List.lookup, beq_eq_false_iff_ne.mpr h]
    · simp [bump, hk, List.lookup, ih]

/-- Bumping a type's tally raises the total of all tallies by one. -/
theorem bump_sum (l : List (String × Nat)) (t : String) :
    sumCounts (bump l t) = sumCounts l + 1 := by
  induction l with
  | nil => simp [bump, sumCounts]
  | cons kv rest ih =>
    obtain ⟨k, v⟩ := kv
    by_cases h : k = t
    · subst h
      simp [bump, sumCounts]
      omega
    · simp [bump, h, sumCounts] at ih ⊢
      omega

/-- The tally fold of `get_summary`, characterized over any starting
accumulator: totals grow by the number of results and each type's tally by
the number of results of that type. -/
theorem results_by_type_aux (rs : List ScanResult) : ∀ acc : List (String × Nat),
    (sumCounts (rs.foldl (fun a r => bump a r.vulnerability_type) acc)
      = sumCounts acc + rs.length) ∧
    ∀ t, lookupCount (rs.foldl (fun a r => bump a r.vulnerability_type) acc) t
      = lookupCount acc t + (rs.filter (fun r => r.vulnerability_type = t)).length := by
  induction rs with
  | nil => intro acc; simp
  | cons r rs ih =>
    intro acc
    constructor
    · simp only [List.foldl_cons]
      rw [(ih _).1, bump_sum]
      simp only [List.length_cons]
      omega
    · intro t
      simp only [List.foldl_cons]
      rw [(ih _).2 t]
      by_cases h : r.vulnerability_type = t
      · rw [List.filter_cons_of_pos (by simp [h])]
        have hb : lookupCount (bump acc r.vulnerability_type) t = lookupCount acc t + 1 := by
          rw [h]
          simp [lookupCount, bump_lookup_self]
        rw [hb]
        simp only [List.length_cons]
        omega
      · rw [List.filter_cons_of_neg (by simp [h])]
        have hb : lookupCount (bump acc r.vulnerability_type) t = lookupCount acc t := by
          simp [lookupCount, bump_lookup_other acc r.vulnerability_type t
            (fun hh => h hh.symm)]
        rw [hb]

/-- Claim C10: the summary is internally consistent — its total equals the
length of the findings list, the per-type tallies sum to that total, and
each type's tally equals the number of findings of that type. -/
theorem get_summary_consistent (scan_results : List ScanResult)
    (discovered_urls : List String) (now : String) :
    ((get_summary scan_results discovered_urls now).total_vulnerabilities
      = scan_results.length) ∧
    (sumCounts (get_summary scan_results discovered_urls now).vulnerabilities_by_type
      = scan_results.length) ∧
    ∀ t, lookupCount (get_summary scan_results discovered_urls now).vulnerabilities_by_type t
      = (scan_results.filter (fun r => r.vulnerability_type = t)).length := by
  refine ⟨rfl, ?_, ?_⟩
  · have h := (results_by_type_aux scan_results []).1
    simpa [get_summary, results_by_type, sumCounts] using h
  · intro t
    have h := (results_by_type_aux scan_results []).2 t
    simpa [get_summary, results_by_type, lookupCount, List.lookup] using h

end VulnX
